import Mathlib

/-!
Shallow embedding of the FullFuelTv authentication and authorization flow
(`src/server/controllers/auth.controller.ts` and the admin-guarded content
routes of `src/server/routes.ts`).

Conventions of the embedding:
* JavaScript string truthiness (`if (!x)`) is modelled on `Option String`:
  an absent field or the empty string is falsy.
* bcrypt is modelled by a `Digest` structure carrying the salt and the
  hashed input; `bcryptCompare` checks the input against the digest body.
  This captures "salted one-way hash with verify" at the level the control
  flow observes it.
* `jsonwebtoken` tokens are modelled by an inductive `Token`: a token is
  either signed with some secret over some claims, or malformed.
  `jwtVerify` succeeds exactly when the token was signed with the expected
  secret (expiry is irrelevant to the claims under study).
* The Mongo-backed `storage` layer is modelled by a list of users plus a
  fresh-id counter, wrapped in a `Store` structure carrying failure flags:
  a flag set means that the corresponding storage method throws, so that
  the controller's try/catch structure around store calls can be examined.
* Google ID tokens (`google-auth-library`) are modelled by `GToken`:
  the raw dot-separated segments, the structural decode of the middle
  segment, a signature-validity bit, and the audience claim.
  `verifyIdToken` mirrors `OAuth2Client.verifyIdToken`: the audience claim
  is checked only when a required audience is supplied; the controller
  passes `audience: undefined`.
-/

/-- JavaScript truthiness of an optional string body field: absent and `""` are falsy. -/
def truthy : Option String → Bool
  | none => false
  | some s => !s.isEmpty

/-- JavaScript `x || d` on an optional string field. -/
def orElseStr (o : Option String) (d : String) : String :=
  match o with
  | none => d
  | some s => if s.isEmpty then d else s

/-- JavaScript `email.split('@')[0]`: the substring before the first `@`
(the whole string when no `@` occurs). -/
def localPart (e : String) : String :=
  String.mk (e.toList.takeWhile (fun c => c ≠ '@'))

/-- Model of a bcrypt digest: the salt used and the hashed input. -/
structure Digest where
  salt : Nat
  body : String
deriving Repr, DecidableEq

/-- Model of `bcrypt.hash(pw, salt)`. -/
def bcryptHash (salt : Nat) (pw : String) : Digest := ⟨salt, pw⟩

/-- Model of `bcrypt.compare(pw, digest)`. -/
def bcryptCompare (pw : String) (d : Digest) : Bool := d.body == pw

/-- JWT claims issued by the controller: `{ id, name, email }`. -/
structure Claims where
  id : Nat
  name : String
  email : String
deriving Repr, DecidableEq

/-- Model of a `jsonwebtoken` token string: signed over claims with a secret, or garbage. -/
inductive Token where
  | signed (secret : String) (claims : Claims)
  | malformed (raw : String)
deriving Repr, DecidableEq

/-- Model of `jwt.sign(claims, secret)`. -/
def jwtSign (c : Claims) (secret : String) : Token := .signed secret c

/-- Model of `jwt.verify(token, secret)`: `none` means the call throws. -/
def jwtVerify (secret : String) : Token → Option Claims
  | .signed s c => if s == secret then some c else none
  | .malformed _ => none

/-- The `JWT_SECRET` constant of both `auth.controller.ts` and `routes.ts` (default value). -/
def JWT_SECRET : String := "full-fuel-jwt-secret"

/-- The `GOOGLE_CLIENT_ID` constant of `auth.controller.ts`. -/
def GOOGLE_CLIENT_ID : String :=
  "459807581006-5kb6rg9s1dj6klua4icma8raoi0la55c.apps.googleusercontent.com"

/-- A stored user record (the fields of `UserSchema` that the auth flow reads). -/
structure User where
  id : Nat
  name : String
  email : String
  username : String
  password : Option Digest
  role : String
  favoriteArtists : List String
  purchasedTickets : List String
deriving Repr, DecidableEq

/-- The `InsertUser` shape handed to `storage.createUser`. -/
structure InsertUser where
  name : String
  email : String
  username : String
  password : Option Digest
  role : String
  favoriteArtists : List String
  purchasedTickets : List String
deriving Repr, DecidableEq

/-- The persistent state of the credential store. -/
structure StoreState where
  users : List User
  nextId : Nat
deriving Repr, DecidableEq

/-- The credential store together with failure-injection flags: a set flag
means the corresponding storage method throws an exception on every call. -/
structure Store where
  st : StoreState
  failGetByEmail : Bool
  failGetByUsername : Bool
  failGetById : Bool
  failCreate : Bool
deriving Repr, DecidableEq

/-- Model of `storage.getUserByEmail`. -/
def Store.getUserByEmail (s : Store) (e : String) : Except Unit (Option User) :=
  if s.failGetByEmail then .error () else .ok (s.st.users.find? (fun u => u.email == e))

/-- Model of `storage.getUserByUsername`. -/
def Store.getUserByUsername (s : Store) (un : String) : Except Unit (Option User) :=
  if s.failGetByUsername then .error () else .ok (s.st.users.find? (fun u => u.username == un))

/-- Model of `storage.getUser` (lookup by id). -/
def Store.getUser (s : Store) (i : Nat) : Except Unit (Option User) :=
  if s.failGetById then .error () else .ok (s.st.users.find? (fun u => u.id == i))

/-- Model of `storage.createUser`: assigns a fresh id and appends the record. -/
def Store.createUser (s : Store) (nu : InsertUser) : Except Unit (User × Store) :=
  if s.failCreate then .error ()
  else
    .ok (⟨s.st.nextId, nu.name, nu.email, nu.username, nu.password, nu.role,
           nu.favoriteArtists, nu.purchasedTickets⟩,
      { s with
        st := ⟨s.st.users ++
          [⟨s.st.nextId, nu.name, nu.email, nu.username, nu.password, nu.role,
             nu.favoriteArtists, nu.purchasedTickets⟩], s.st.nextId + 1⟩ })

/-- Response bodies produced by the handlers under study. -/
inductive Body where
  | err (msg : String)
  | tokenUser (token : Token) (user : User)
  | userOnly (user : User)
  | data (v : String)
  | noContent
deriving Repr, DecidableEq

/-- An HTTP response: status code and JSON body. -/
structure Resp where
  status : Nat
  body : Body
deriving Repr, DecidableEq

/-- The user object embedded in a success response, if any. -/
def Resp.userView : Resp → Option User
  | ⟨_, .tokenUser _ u⟩ => some u
  | ⟨_, .userOnly u⟩ => some u
  | _ => none

/-- The id of the user embedded in a success response, if any. -/
def Resp.userId (r : Resp) : Option Nat := r.userView.map User.id

/-- The `{ ...user, password: undefined }` spread used before every success response. -/
def scrub (u : User) : User := { u with password := none }

/-- A response body never exposes a password field. -/
def Body.scrubbed : Body → Bool
  | .tokenUser _ u => u.password == none
  | .userOnly u => u.password == none
  | _ => true

/-- Tail of `register`: hash the password, insert the record, issue a token
(`auth.controller.ts` lines 44–75); a `createUser` exception is caught → 500. -/
def registerCreate (s : Store) (salt : Nat) (nameV emailV passwordV usernameV : String) :
    Resp × Store :=
  match s.createUser ⟨nameV, emailV, usernameV, some (bcryptHash salt passwordV), "user", [], []⟩ with
  | .error _ => (⟨500, .err "Error creating user"⟩, s)
  | .ok (u, s2) =>
    (⟨200, .tokenUser (jwtSign ⟨u.id, u.name, u.email⟩ JWT_SECRET) (scrub u)⟩, s2)

/-- Model of `authController.register` (`auth.controller.ts` lines 22–80).
`salt` stands for the random salt produced by `bcrypt.genSalt(10)`. -/
def register (s : Store) (salt : Nat) (name email password username : Option String) :
    Resp × Store :=
  if !(truthy name && truthy email && truthy password) then
    (⟨400, .err "Name, email, and password are required"⟩, s)
  else
    match s.getUserByEmail (email.getD "") with
    | .error _ => (⟨500, .err "Error creating user"⟩, s)
    | .ok (some _) => (⟨400, .err "User with this email already exists"⟩, s)
    | .ok none =>
      if truthy username then
        match s.getUserByUsername (username.getD "") with
        | .error _ => (⟨500, .err "Error creating user"⟩, s)
        | .ok (some _) => (⟨400, .err "Username is already taken"⟩, s)
        | .ok none =>
          registerCreate s salt (name.getD "") (email.getD "") (password.getD "") (username.getD "")
      else
        registerCreate s salt (name.getD "") (email.getD "") (password.getD "")
          (localPart (email.getD ""))

/-- Model of `authController.login` (`auth.controller.ts` lines 83–127). -/
def login (s : Store) (email password : Option String) : Resp :=
  if !(truthy email && truthy password) then
    ⟨400, .err "Email and password are required"⟩
  else
    match s.getUserByEmail (email.getD "") with
    | .error _ => ⟨500, .err "Error logging in"⟩
    | .ok none => ⟨401, .err "Invalid email or password"⟩
    | .ok (some u) =>
      match u.password with
      | none => ⟨400, .err "This account uses a different authentication method"⟩
      | some d =>
        if !(bcryptCompare (password.getD "") d) then
          ⟨401, .err "Invalid email or password"⟩
        else
          ⟨200, .tokenUser (jwtSign ⟨u.id, u.name, u.email⟩ JWT_SECRET) (scrub u)⟩

/-- Structural content of a Google ID token payload as the controller reads it. -/
structure GPayload where
  sub : Option String
  email : Option String
  name : Option String
deriving Repr, DecidableEq

/-- Model of a Google ID token string: its dot-separated segments, the result
of base64-decoding and JSON-parsing the middle segment (`none` when that
throws), whether its signature verifies against Google's published
certificates, and its audience (`aud`) claim. -/
structure GToken where
  parts : List String
  middle : Option GPayload
  sigValid : Bool
  aud : String
deriving Repr, DecidableEq

/-- Model of `OAuth2Client.verifyIdToken({ idToken, audience })` from
`google-auth-library`: checks the signature against the provider
certificates, then checks the audience claim only when a required audience
is supplied — when `audience` is `undefined` the audience check is skipped. -/
def verifyIdToken (requiredAudience : Option String) (t : GToken) : Except String GPayload :=
  if !t.sigValid then .error "invalid signature"
  else
    match t.middle with
    | none => .error "malformed token"
    | some p =>
      match requiredAudience with
      | none => .ok p
      | some a => if t.aud == a then .ok p else .error "audience mismatch"

/-- The `InsertUser` built by both Google handlers: name defaulted to
`"Google User"`, username from the email local part, password a bcrypt hash
of `secret`, role `user`, empty lists. -/
def googleUserInsert (salt : Nat) (secret : String) (nm : Option String) (em : String) :
    InsertUser :=
  ⟨orElseStr nm "Google User", em, localPart em, some (bcryptHash salt secret), "user", [], []⟩

/-- Primary path of `authController.googleLogin` (`auth.controller.ts`
lines 139–186): everything inside the inner `try`. `Except.error ()` means an
exception was thrown there — by `verifyIdToken` or by a storage call — and
control passes to the fallback `catch`. -/
def googleLoginPrimary (s : Store) (salt : Nat) (rnd : String) (t : GToken) :
    Except Unit (Resp × Store) :=
  match verifyIdToken none t with
  | .error _ => .error ()
  | .ok payload =>
    if !(truthy payload.email) then .ok (⟨400, .err "Invalid Google token payload"⟩, s)
    else
      match s.getUserByEmail (payload.email.getD "") with
      | .error _ => .error ()
      | .ok (some u) =>
        .ok (⟨200, .tokenUser (jwtSign ⟨u.id, u.name, u.email⟩ JWT_SECRET) (scrub u)⟩, s)
      | .ok none =>
        match s.createUser (googleUserInsert salt (orElseStr payload.sub rnd) payload.name (payload.email.getD "")) with
        | .error _ => .error ()
        | .ok (u, s2) =>
          .ok (⟨200, .tokenUser (jwtSign ⟨u.id, u.name, u.email⟩ JWT_SECRET) (scrub u)⟩, s2)

/-- Fallback path of `authController.googleLogin` (`auth.controller.ts`
lines 191–241): manual split on `.`, structural decode of the middle
segment, upsert, with any exception caught → 400 "Unable to process". -/
def googleLoginFallback (s : Store) (salt : Nat) (rnd : String) (t : GToken) : Resp × Store :=
  if t.parts.length ≠ 3 then (⟨400, .err "Invalid token format"⟩, s)
  else
    match t.middle with
    | none => (⟨400, .err "Unable to process Google token"⟩, s)
    | some decoded =>
      if !(truthy decoded.email) then (⟨400, .err "Invalid token content"⟩, s)
      else
        match s.getUserByEmail (decoded.email.getD "") with
        | .error _ => (⟨400, .err "Unable to process Google token"⟩, s)
        | .ok (some u) =>
          (⟨200, .tokenUser (jwtSign ⟨u.id, u.name, u.email⟩ JWT_SECRET) (scrub u)⟩, s)
        | .ok none =>
          match s.createUser (googleUserInsert salt rnd decoded.name (decoded.email.getD "")) with
          | .error _ => (⟨400, .err "Unable to process Google token"⟩, s)
          | .ok (u, s2) =>
            (⟨200, .tokenUser (jwtSign ⟨u.id, u.name, u.email⟩ JWT_SECRET) (scrub u)⟩, s2)

/-- Model of `authController.googleLogin` (`auth.controller.ts` lines 130–247).
`salt` stands for the bcrypt salt, `rnd` for `Math.random().toString()`. -/
def googleLogin (s : Store) (salt : Nat) (rnd : String) (tok : Option GToken) : Resp × Store :=
  match tok with
  | none => (⟨400, .err "Google token is required"⟩, s)
  | some t =>
    match googleLoginPrimary s salt rnd t with
    | .ok r => r
    | .error _ => googleLoginFallback s salt rnd t

/-- Primary path of `authController.registerWithGoogle` (`auth.controller.ts`
lines 259–308): like `googleLoginPrimary` but an existing record is a
duplicate-email failure rather than a login. -/
def registerWithGooglePrimary (s : Store) (salt : Nat) (rnd : String) (t : GToken) :
    Except Unit (Resp × Store) :=
  match verifyIdToken none t with
  | .error _ => .error ()
  | .ok payload =>
    if !(truthy payload.email) then .ok (⟨400, .err "Invalid Google token payload"⟩, s)
    else
      match s.getUserByEmail (payload.email.getD "") with
      | .error _ => .error ()
      | .ok (some _) => .ok (⟨400, .err "User with this email already exists"⟩, s)
      | .ok none =>
        match s.createUser (googleUserInsert salt (orElseStr payload.sub rnd) payload.name (payload.email.getD "")) with
        | .error _ => .error ()
        | .ok (u, s2) =>
          .ok (⟨200, .tokenUser (jwtSign ⟨u.id, u.name, u.email⟩ JWT_SECRET) (scrub u)⟩, s2)

/-- Fallback path of `authController.registerWithGoogle` (`auth.controller.ts`
lines 313–365). -/
def registerWithGoogleFallback (s : Store) (salt : Nat) (rnd : String) (t : GToken) :
    Resp × Store :=
  if t.parts.length ≠ 3 then (⟨400, .err "Invalid token format"⟩, s)
  else
    match t.middle with
    | none => (⟨400, .err "Unable to process Google token"⟩, s)
    | some decoded =>
      if !(truthy decoded.email) then (⟨400, .err "Invalid token content"⟩, s)
      else
        match s.getUserByEmail (decoded.email.getD "") with
        | .error _ => (⟨400, .err "Unable to process Google token"⟩, s)
        | .ok (some _) => (⟨400, .err "User with this email already exists"⟩, s)
        | .ok none =>
          match s.createUser (googleUserInsert salt rnd decoded.name (decoded.email.getD "")) with
          | .error _ => (⟨400, .err "Unable to process Google token"⟩, s)
          | .ok (u, s2) =>
            (⟨200, .tokenUser (jwtSign ⟨u.id, u.name, u.email⟩ JWT_SECRET) (scrub u)⟩, s2)

/-- Model of `authController.registerWithGoogle` (`auth.controller.ts`
lines 250–371). -/
def registerWithGoogle (s : Store) (salt : Nat) (rnd : String) (tok : Option GToken) :
    Resp × Store :=
  match tok with
  | none => (⟨400, .err "Google token is required"⟩, s)
  | some t =>
    match registerWithGooglePrimary s salt rnd t with
    | .ok r => r
    | .error _ => registerWithGoogleFallback s salt rnd t

/-- An `Authorization` header value `"<scheme> <token>"`. The checks
`authHeader.startsWith('Bearer ')` and `authHeader.split(' ')[1]` become the
scheme test and the token projection. -/
structure BearerHeader where
  scheme : String
  token : Token
deriving Repr, DecidableEq

/-- The shared header-extraction step of `getCurrentUser` and every admin
route: `authHeader && authHeader.startsWith('Bearer ')`, then `split(' ')[1]`. -/
def extractBearer : Option BearerHeader → Option Token
  | none => none
  | some bh => if bh.scheme == "Bearer" then some bh.token else none

/-- Model of `authController.getCurrentUser` (`auth.controller.ts`
lines 374–412). Note the inner `try` encloses both `jwt.verify` and
`storage.getUser`, so a storage exception there is answered by the inner
`catch` with 401 "Invalid token". -/
def getCurrentUser (s : Store) (h : Option BearerHeader) : Resp :=
  match extractBearer h with
  | none => ⟨401, .err "No token provided"⟩
  | some tok =>
    match jwtVerify JWT_SECRET tok with
    | none => ⟨401, .err "Invalid token"⟩
    | some c =>
      match s.getUser c.id with
      | .error _ => ⟨401, .err "Invalid token"⟩
      | .ok none => ⟨404, .err "User not found"⟩
      | .ok (some u) => ⟨200, .userOnly (scrub u)⟩

/-- Outcome of the admin check that opens every content-management handler in
`routes.ts`: an immediate rejection response, an exception (thrown by
`jwt.verify` or `storage.getUser`, answered by the handler's `catch` with the
route-specific 500 message), or an authorized admin user. -/
inductive GuardResult where
  | reject (status : Nat) (msg : String)
  | thrown
  | allow (u : User)
deriving Repr, DecidableEq

/-- The admin check repeated verbatim in every content-management handler of
`routes.ts` (e.g. lines 339–349): header present with `Bearer ` prefix,
`jwt.verify`, `storage.getUser`, `user.role === 'admin'`. -/
def adminGuard (s : Store) (h : Option BearerHeader) : GuardResult :=
  match extractBearer h with
  | none => .reject 401 "Authentication required"
  | some tok =>
    match jwtVerify JWT_SECRET tok with
    | none => .thrown
    | some c =>
      match s.getUser c.id with
      | .error _ => .thrown
      | .ok none => .reject 403 "Admin access required"
      | .ok (some u) =>
        if u.role != "admin" then .reject 403 "Admin access required" else .allow u

/-- The common shape of every admin content-management handler in `routes.ts`:
run the admin check; on rejection answer it, on an exception answer the
route's catch-all 500 message, otherwise run the route's store mutation. -/
def adminRoute {σ : Type} (catchMsg : String) (mutate : σ → Resp × σ)
    (s : Store) (h : Option BearerHeader) (st : σ) : Resp × σ :=
  match adminGuard s h with
  | .reject code m => (⟨code, .err m⟩, st)
  | .thrown => (⟨500, .err catchMsg⟩, st)
  | .allow _ => mutate st

/-- The content store backing videos, events, mixes and gallery items is an
external collaborator; it is modelled as a list of items (the auth claims
concern only whether a mutation runs). Create appends. -/
def contentCreate (body : String) (cs : List String) : Resp × List String :=
  (⟨201, .data body⟩, cs ++ [body])

/-- Update of one content item: 404 when the target id is absent. -/
def contentUpdate (target body : String) (cs : List String) : Resp × List String :=
  if cs.contains target then
    (⟨200, .data body⟩, cs.map (fun x => if x == target then body else x))
  else
    (⟨404, .err "not found"⟩, cs)

/-- Deletion of one content item: 404 when the target id is absent, 204 otherwise. -/
def contentDelete (target : String) (cs : List String) : Resp × List String :=
  if cs.contains target then (⟨204, .noContent⟩, cs.filter (fun x => x != target))
  else (⟨404, .err "not found"⟩, cs)

/-- Handler of `POST /api/videos` (`routes.ts` lines 336–358). -/
def postVideos (s : Store) (h : Option BearerHeader) (body : String) (cs : List String) :
    Resp × List String :=
  adminRoute "Failed to create video" (contentCreate body) s h cs

/-- Handler of `PUT /api/videos/:id` (`routes.ts` lines 360–386). -/
def putVideos (s : Store) (h : Option BearerHeader) (target body : String) (cs : List String) :
    Resp × List String :=
  adminRoute "Failed to update video" (contentUpdate target body) s h cs

/-- Handler of `DELETE /api/videos/:id` (`routes.ts` lines 388–414). -/
def deleteVideos (s : Store) (h : Option BearerHeader) (target : String) (cs : List String) :
    Resp × List String :=
  adminRoute "Failed to delete video" (contentDelete target) s h cs

/-- Handler of `POST /api/events` (`routes.ts` lines 417–439). -/
def postEvents (s : Store) (h : Option BearerHeader) (body : String) (cs : List String) :
    Resp × List String :=
  adminRoute "Failed to create event" (contentCreate body) s h cs

/-- Handler of `PUT /api/events/:id` (`routes.ts` lines 441–467). -/
def putEvents (s : Store) (h : Option BearerHeader) (target body : String) (cs : List String) :
    Resp × List String :=
  adminRoute "Failed to update event" (contentUpdate target body) s h cs

/-- Handler of `DELETE /api/events/:id` (`routes.ts` lines 469–495). -/
def deleteEvents (s : Store) (h : Option BearerHeader) (target : String) (cs : List String) :
    Resp × List String :=
  adminRoute "Failed to delete event" (contentDelete target) s h cs

/-- Handler of `POST /api/mixes` (`routes.ts` lines 498–520). -/
def postMixes (s : Store) (h : Option BearerHeader) (body : String) (cs : List String) :
    Resp × List String :=
  adminRoute "Failed to create mix" (contentCreate body) s h cs

/-- Handler of `PUT /api/mixes/:id` (`routes.ts` lines 522–548). -/
def putMixes (s : Store) (h : Option BearerHeader) (target body : String) (cs : List String) :
    Resp × List String :=
  adminRoute "Failed to update mix" (contentUpdate target body) s h cs

/-- Handler of `DELETE /api/mixes/:id` (`routes.ts` lines 550–576). -/
def deleteMixes (s : Store) (h : Option BearerHeader) (target : String) (cs : List String) :
    Resp × List String :=
  adminRoute "Failed to delete mix" (contentDelete target) s h cs

/-- Handler of `POST /api/gallery` (`routes.ts` lines 579–601). -/
def postGallery (s : Store) (h : Option BearerHeader) (body : String) (cs : List String) :
    Resp × List String :=
  adminRoute "Failed to create gallery item" (contentCreate body) s h cs

/-- Handler of `PUT /api/gallery/:id` (`routes.ts` lines 603–629). -/
def putGallery (s : Store) (h : Option BearerHeader) (target body : String) (cs : List String) :
    Resp × List String :=
  adminRoute "Failed to update gallery item" (contentUpdate target body) s h cs

/-- Handler of `DELETE /api/gallery/:id` (`routes.ts` lines 631–657). -/
def deleteGallery (s : Store) (h : Option BearerHeader) (target : String) (cs : List String) :
    Resp × List String :=
  adminRoute "Failed to delete gallery item" (contentDelete target) s h cs

example :
    (register ⟨⟨[], 0⟩, false, false, false, false⟩ 7
      (some "Ava") (some "ava@x.com") (some "secret1") none).1.userView
      = some ⟨0, "Ava", "ava@x.com", "ava", none, "user", [], []⟩ := by rfl

/-! Helper lemmas. -/

lemma find?_append_of_none {α} (p : α → Bool) {l1 : List α} (l2 : List α)
    (h : l1.find? p = none) : (l1 ++ l2).find? p = l2.find? p := by
  simp [List.find?_append, h]

lemma register_scrubbed {s : Store} {salt : Nat} {n e p un : Option String} {r : Resp}
    {s2 : Store} (h : register s salt n e p un = (r, s2)) : r.body.scrubbed = true := by
  unfold register registerCreate at h
  repeat' split at h
  all_goals first
    | (simp only [Prod.mk.injEq] at h
       obtain ⟨h1, h2⟩ := h
       subst h1
       simp [Body.scrubbed, scrub])
    | simp at h

lemma login_scrubbed {s : Store} {e p : Option String} {r : Resp}
    (h : login s e p = r) : r.body.scrubbed = true := by
  unfold login at h
  repeat' split at h
  all_goals (subst h; simp [Body.scrubbed, scrub])

lemma googleLoginPrimary_scrubbed {s : Store} {salt : Nat} {rnd : String} {t : GToken}
    {r : Resp} {s2 : Store}
    (h : googleLoginPrimary s salt rnd t = .ok (r, s2)) : r.body.scrubbed = true := by
  unfold googleLoginPrimary at h
  repeat' split at h
  all_goals first
    | (simp only [Except.ok.injEq, Prod.mk.injEq] at h
       obtain ⟨h1, h2⟩ := h
       subst h1
       simp [Body.scrubbed, scrub])
    | simp at h

lemma googleLoginFallback_scrubbed {s : Store} {salt : Nat} {rnd : String} {t : GToken}
    {r : Resp} {s2 : Store}
    (h : googleLoginFallback s salt rnd t = (r, s2)) : r.body.scrubbed = true := by
  unfold googleLoginFallback at h
  repeat' split at h
  all_goals first
    | (simp only [Prod.mk.injEq] at h
       obtain ⟨h1, h2⟩ := h
       subst h1
       simp [Body.scrubbed, scrub])
    | simp at h

lemma googleLogin_scrubbed {s : Store} {salt : Nat} {rnd : String} {tok : Option GToken}
    {r : Resp} {s2 : Store}
    (h : googleLogin s salt rnd tok = (r, s2)) : r.body.scrubbed = true := by
  unfold googleLogin at h
  split at h
  · simp only [Prod.mk.injEq] at h
    obtain ⟨h1, h2⟩ := h
    subst h1
    simp [Body.scrubbed]
  · split at h
    · rename_i r' heq
      obtain ⟨rr, ss⟩ := r'
      cases h
      exact googleLoginPrimary_scrubbed heq
    · exact googleLoginFallback_scrubbed h

lemma registerWithGooglePrimary_scrubbed {s : Store} {salt : Nat} {rnd : String} {t : GToken}
    {r : Resp} {s2 : Store}
    (h : registerWithGooglePrimary s salt rnd t = .ok (r, s2)) : r.body.scrubbed = true := by
  unfold registerWithGooglePrimary at h
  repeat' split at h
  all_goals first
    | (simp only [Except.ok.injEq, Prod.mk.injEq] at h
       obtain ⟨h1, h2⟩ := h
       subst h1
       simp [Body.scrubbed, scrub])
    | simp at h

lemma registerWithGoogleFallback_scrubbed {s : Store} {salt : Nat} {rnd : String} {t : GToken}
    {r : Resp} {s2 : Store}
    (h : registerWithGoogleFallback s salt rnd t = (r, s2)) : r.body.scrubbed = true := by
  unfold registerWithGoogleFallback at h
  repeat' split at h
  all_goals first
    | (simp only [Prod.mk.injEq] at h
       obtain ⟨h1, h2⟩ := h
       subst h1
       simp [Body.scrubbed, scrub])
    | simp at h

lemma registerWithGoogle_scrubbed {s : Store} {salt : Nat} {rnd : String} {tok : Option GToken}
    {r : Resp} {s2 : Store}
    (h : registerWithGoogle s salt rnd tok = (r, s2)) : r.body.scrubbed = true := by
  unfold registerWithGoogle at h
  split at h
  · simp only [Prod.mk.injEq] at h
    obtain ⟨h1, h2⟩ := h
    subst h1
    simp [Body.scrubbed]
  · split at h
    · rename_i r' heq
      obtain ⟨rr, ss⟩ := r'
      cases h
      exact registerWithGooglePrimary_scrubbed heq
    · exact registerWithGoogleFallback_scrubbed h

lemma getCurrentUser_scrubbed {s : Store} {hdr : Option BearerHeader} {r : Resp}
    (h : getCurrentUser s hdr = r) : r.body.scrubbed = true := by
  unfold getCurrentUser at h
  repeat' split at h
  all_goals (subst h; simp [Body.scrubbed, scrub])

/-! Claim theorems. -/

/-- C1: for every Auth Service operation (`register`, `login`, `googleLogin`
as externalLogin, `registerWithGoogle` as externalRegister, `getCurrentUser`)
and every input, the user object embedded in the response — in particular in
every success response — has its password field absent (`none`), regardless
of the password hash stored in the record. -/
theorem c1_success_responses_scrubbed (s : Store) (salt : Nat)
    (n e p un : Option String) (rnd : String) (gtok : Option GToken)
    (hdr : Option BearerHeader) :
    (register s salt n e p un).1.body.scrubbed = true ∧
    (login s e p).body.scrubbed = true ∧
    (googleLogin s salt rnd gtok).1.body.scrubbed = true ∧
    (registerWithGoogle s salt rnd gtok).1.body.scrubbed = true ∧
    (getCurrentUser s hdr).body.scrubbed = true :=
  ⟨register_scrubbed Prod.mk.eta.symm, login_scrubbed rfl,
   googleLogin_scrubbed Prod.mk.eta.symm, registerWithGoogle_scrubbed Prod.mk.eta.symm,
   getCurrentUser_scrubbed rfl⟩

/-! Concrete fixtures used by witnesses and counterexamples. -/

/-- An empty, healthy credential store. -/
def emptyStore : Store := ⟨⟨[], 0⟩, false, false, false, false⟩

/-- A Google ID token whose signature verifies but whose audience claim names
a different client than `GOOGLE_CLIENT_ID`. -/
def foreignAudTok : GToken :=
  ⟨["hdr", "pay", "sig"], some ⟨some "sub-1", some "eve@example.com", some "Eve"⟩,
    true, "attacker-client-id"⟩

/-- C2 counterexample: a signature-valid assertion whose audience is not the
platform's registered client identifier still passes the primary verification
path of `googleLogin` — the controller calls `verifyIdToken` with
`audience: undefined` — and the operation answers 200. -/
theorem c2_counterexample :
    foreignAudTok.aud ≠ GOOGLE_CLIENT_ID ∧
    googleLoginPrimary emptyStore 3 "r" foreignAudTok =
      .ok (⟨200, .tokenUser (jwtSign ⟨0, "Eve", "eve@example.com"⟩ JWT_SECRET)
          ⟨0, "Eve", "eve@example.com", "eve", none, "user", [], []⟩⟩,
        ⟨⟨[⟨0, "Eve", "eve@example.com", "eve", some ⟨3, "sub-1"⟩, "user", [], []⟩], 1⟩,
          false, false, false, false⟩) ∧
    (googleLogin emptyStore 3 "r" (some foreignAudTok)).1.status = 200 :=
  ⟨by decide, rfl, rfl⟩

/-- C2 amended: the primary verification path of `externalLogin` and
`externalRegister` verifies the assertion against the provider's public keys
only; the platform's registered client identifier is never checked, because
the controller passes `audience: undefined` to `verifyIdToken` — so a
signature-valid assertion passes the primary path whatever its audience. -/
theorem c2_primary_ignores_audience (t : GToken) (p : GPayload)
    (hs : t.sigValid = true) (hm : t.middle = some p) :
    ∀ a : String, verifyIdToken none ⟨t.parts, t.middle, t.sigValid, a⟩ = .ok p := by
  intro a
  simp [verifyIdToken, hs, hm]

/-- Witness for C2's amended theorem at a concrete token. -/
theorem c2_primary_ignores_audience_witness :
    verifyIdToken none
        ⟨foreignAudTok.parts, foreignAudTok.middle, foreignAudTok.sigValid, "whoever"⟩ =
      .ok ⟨some "sub-1", some "eve@example.com", some "Eve"⟩ :=
  c2_primary_ignores_audience foreignAudTok ⟨some "sub-1", some "eve@example.com", some "Eve"⟩
    rfl rfl "whoever"

/-- A Google ID token that is entirely in order: signature valid, audience
equal to the registered client id, three segments, email present. -/
def okGoogleTok : GToken :=
  ⟨["hdr", "pay", "sig"], some ⟨some "sub-2", some "bob@example.com", some "Bob"⟩,
    true, GOOGLE_CLIENT_ID⟩

/-- A store whose `getUserByEmail` throws on every call. -/
def emailThrowStore : Store := ⟨⟨[], 0⟩, true, false, false, false⟩

/-- C3 counterexample: a `getUserByEmail` exception during `googleLogin` on a
perfectly valid assertion is not converted to a 500 `StoreFailure`; it is
caught by the same handler as verification errors, redirects the operation
into the fallback parse path, and surfaces as a 400. -/
theorem c3_counterexample :
    googleLogin emailThrowStore 3 "r" (some okGoogleTok) =
      (⟨400, .err "Unable to process Google token"⟩, emailThrowStore) ∧
    (googleLogin emailThrowStore 3 "r" (some okGoogleTok)).1.status ≠ 500 :=
  ⟨rfl, by decide⟩

/-- C3 amended: a Credential Store exception is converted to a 500 only in
`register` and `login`; in `currentUser` a store exception after a valid
token is answered by the token-verification catch with 401 "Invalid token",
and in `externalLogin`/`externalRegister` a store exception inside the
primary path is caught like a verification error, redirects into the
fallback parse path, and surfaces as a 400 — never as a 500 store failure. -/
theorem c3_store_failure_mapping (s : Store) (salt : Nat)
    (n e p un : Option String) (rnd : String) (t : GToken) (d : GPayload)
    (hn : truthy n = true) (he : truthy e = true) (hp : truthy p = true)
    (hfail : s.failGetByEmail = true)
    (hc : Claims) (hid : s.failGetById = true)
    (hs : t.sigValid = true) (hm : t.middle = some d)
    (hde : truthy d.email = true) (h3 : t.parts.length = 3) :
    register s salt n e p un = (⟨500, .err "Error creating user"⟩, s) ∧
    login s e p = ⟨500, .err "Error logging in"⟩ ∧
    getCurrentUser s (some ⟨"Bearer", jwtSign hc JWT_SECRET⟩) = ⟨401, .err "Invalid token"⟩ ∧
    googleLogin s salt rnd (some t) =
      (⟨400, .err "Unable to process Google token"⟩, s) ∧
    registerWithGoogle s salt rnd (some t) =
      (⟨400, .err "Unable to process Google token"⟩, s) := by
  refine ⟨?_, ?_, ?_, ?_, ?_⟩
  · simp [register, Store.getUserByEmail, hfail, hn, he, hp]
  · simp [login, Store.getUserByEmail, hfail, he, hp]
  · simp [getCurrentUser, extractBearer, jwtVerify, jwtSign, Store.getUser, hid, JWT_SECRET]
  · simp [googleLogin, googleLoginPrimary, googleLoginFallback, verifyIdToken,
      Store.getUserByEmail, hfail, hs, hm, hde, h3]
  · simp [registerWithGoogle, registerWithGooglePrimary, registerWithGoogleFallback,
      verifyIdToken, Store.getUserByEmail, hfail, hs, hm, hde, h3]

/-- Witness for C3's amended theorem at a concrete failing store and token. -/
theorem c3_store_failure_mapping_witness :
    register ⟨⟨[], 0⟩, true, false, true, false⟩ 3
        (some "Bob") (some "bob@example.com") (some "pw") none =
      (⟨500, .err "Error creating user"⟩, ⟨⟨[], 0⟩, true, false, true, false⟩) ∧
    login ⟨⟨[], 0⟩, true, false, true, false⟩ (some "bob@example.com") (some "pw") =
      ⟨500, .err "Error logging in"⟩ ∧
    getCurrentUser ⟨⟨[], 0⟩, true, false, true, false⟩
        (some ⟨"Bearer", jwtSign ⟨0, "Bob", "bob@example.com"⟩ JWT_SECRET⟩) =
      ⟨401, .err "Invalid token"⟩ ∧
    googleLogin ⟨⟨[], 0⟩, true, false, true, false⟩ 3 "r" (some okGoogleTok) =
      (⟨400, .err "Unable to process Google token"⟩, ⟨⟨[], 0⟩, true, false, true, false⟩) ∧
    registerWithGoogle ⟨⟨[], 0⟩, true, false, true, false⟩ 3 "r" (some okGoogleTok) =
      (⟨400, .err "Unable to process Google token"⟩, ⟨⟨[], 0⟩, true, false, true, false⟩) := by
  have H := c3_store_failure_mapping ⟨⟨[], 0⟩, true, false, true, false⟩ 3
    (some "Bob") (some "bob@example.com") (some "pw") none "r" okGoogleTok
    ⟨some "sub-2", some "bob@example.com", some "Bob"⟩
    (by decide) (by decide) (by decide) rfl ⟨0, "Bob", "bob@example.com"⟩ rfl rfl rfl
    (by decide) rfl
  exact ⟨H.1, H.2.1, H.2.2.1, H.2.2.2.1, H.2.2.2.2⟩

/-- C4: for every `login` call with both fields present: no matching record,
or a failing hash comparison, yields 401 InvalidCredentials ("Invalid email
or password") and an error body, so no token is issued; a matching record
without any password hash instead yields the distinct 400
UnsupportedAuthMethod ("This account uses a different authentication
method"). -/
theorem c4_login_failure_modes (s : Store) (e p : Option String)
    (he : truthy e = true) (hp : truthy p = true) :
    (s.getUserByEmail (e.getD "") = .ok none →
      login s e p = ⟨401, .err "Invalid email or password"⟩) ∧
    (∀ u, s.getUserByEmail (e.getD "") = .ok (some u) → u.password = none →
      login s e p = ⟨400, .err "This account uses a different authentication method"⟩) ∧
    (∀ u d, s.getUserByEmail (e.getD "") = .ok (some u) → u.password = some d →
      bcryptCompare (p.getD "") d = false →
      login s e p = ⟨401, .err "Invalid email or password"⟩) := by
  refine ⟨fun hn => ?_, fun u hu hpw => ?_, fun u d hu hpw hc => ?_⟩
  · simp [login, he, hp, hn]
  · simp [login, he, hp, hu, hpw]
  · simp [login, he, hp, hu, hpw, hc]

/-- A store holding one classically registered user and one password-less
record, for witnesses. -/
def twoUserStore : Store :=
  ⟨⟨[⟨0, "Alice", "alice@x.com", "alice", some ⟨3, "alicepw"⟩, "user", [], []⟩,
     ⟨1, "Goo", "goo@x.com", "goo", none, "user", [], []⟩], 2⟩,
    false, false, false, false⟩

/-- Witness for C4 at concrete inputs: unknown email, password-less record,
and wrong password each take the stated branch. -/
theorem c4_login_failure_modes_witness :
    login twoUserStore (some "nobody@x.com") (some "pw") =
      ⟨401, .err "Invalid email or password"⟩ ∧
    login twoUserStore (some "goo@x.com") (some "pw") =
      ⟨400, .err "This account uses a different authentication method"⟩ ∧
    login twoUserStore (some "alice@x.com") (some "wrong") =
      ⟨401, .err "Invalid email or password"⟩ := by
  refine ⟨?_, ?_, ?_⟩
  · exact (c4_login_failure_modes twoUserStore (some "nobody@x.com") (some "pw")
      (by decide) (by decide)).1 rfl
  · exact (c4_login_failure_modes twoUserStore (some "goo@x.com") (some "pw")
      (by decide) (by decide)).2.1 ⟨1, "Goo", "goo@x.com", "goo", none, "user", [], []⟩
      rfl rfl
  · exact (c4_login_failure_modes twoUserStore (some "alice@x.com") (some "wrong")
      (by decide) (by decide)).2.2
      ⟨0, "Alice", "alice@x.com", "alice", some ⟨3, "alicepw"⟩, "user", [], []⟩ ⟨3, "alicepw"⟩
      rfl rfl (by decide)

lemma registerCreate_200_inv {s : Store} {salt : Nat} {a b c d : String} {r : Resp}
    {s2 : Store} (h : registerCreate s salt a b c d = (r, s2)) (h200 : r.status = 200) :
    s2.failGetByEmail = s.failGetByEmail ∧
    s2.st.users = s.st.users ++ [⟨s.st.nextId, a, b, d, some (bcryptHash salt c), "user", [], []⟩] := by
  unfold registerCreate at h
  split at h
  · simp only [Prod.mk.injEq] at h
    obtain ⟨h1, h2⟩ := h
    subst h1
    simp at h200
  · rename_i u' s2' heq
    simp only [Prod.mk.injEq] at h
    obtain ⟨h1, h2⟩ := h
    subst h2
    unfold Store.createUser at heq
    split at heq
    · simp at heq
    · simp only [Except.ok.injEq, Prod.mk.injEq] at heq
      obtain ⟨hu, hs⟩ := heq
      subst hs
      exact ⟨rfl, rfl⟩

lemma register_200_inv {s : Store} {salt : Nat} {n e p un : Option String} {r : Resp}
    {s2 : Store} (h : register s salt n e p un = (r, s2)) (h200 : r.status = 200) :
    s2.failGetByEmail = false ∧
    ∃ u, s2.st.users.find? (fun x => x.email == e.getD "") = some u := by
  unfold register at h
  split at h
  · simp only [Prod.mk.injEq] at h
    obtain ⟨h1, h2⟩ := h
    subst h1
    simp at h200
  · split at h
    case _ =>
      simp only [Prod.mk.injEq] at h
      obtain ⟨h1, h2⟩ := h
      subst h1
      simp at h200
    case _ =>
      simp only [Prod.mk.injEq] at h
      obtain ⟨h1, h2⟩ := h
      subst h1
      simp at h200
    case _ hmail =>
      unfold Store.getUserByEmail at hmail
      split at hmail
      · simp at hmail
      · rename_i hflag
        simp only [Except.ok.injEq] at hmail
        have step : s2.failGetByEmail = s.failGetByEmail ∧
            ∃ w : User, w.email = e.getD "" ∧ s2.st.users = s.st.users ++ [w] := by
          split at h
          · split at h
            case _ =>
              simp only [Prod.mk.injEq] at h
              obtain ⟨h1, h2⟩ := h
              subst h1
              simp at h200
            case _ =>
              simp only [Prod.mk.injEq] at h
              obtain ⟨h1, h2⟩ := h
              subst h1
              simp at h200
            case _ =>
              obtain ⟨hf, hu⟩ := registerCreate_200_inv h h200
              exact ⟨hf, ⟨_, rfl, hu⟩⟩
          · obtain ⟨hf, hu⟩ := registerCreate_200_inv h h200
            exact ⟨hf, ⟨_, rfl, hu⟩⟩
        obtain ⟨hf, w, hw, husers⟩ := step
        refine ⟨by simp_all, w, ?_⟩
        rw [husers, find?_append_of_none _ _ hmail]
        simp [List.find?, hw]

/-- C5: if the Credential Store already holds a record with the requested
email, `register` fails with DuplicateEmail ("User with this email already
exists") and leaves the store untouched; consequently, registering twice with
the same email (first call succeeding) fails the second time with
DuplicateEmail and inserts nothing. -/
theorem c5_register_duplicate_email (s : Store) (salt : Nat) (n e p un : Option String)
    (hn : truthy n = true) (he : truthy e = true) (hp : truthy p = true) :
    (∀ u, s.getUserByEmail (e.getD "") = .ok (some u) →
      register s salt n e p un = (⟨400, .err "User with this email already exists"⟩, s)) ∧
    (∀ r s2 salt2 n2 p2 un2, register s salt n e p un = (r, s2) → r.status = 200 →
      truthy n2 = true → truthy p2 = true →
      register s2 salt2 n2 e p2 un2 =
        (⟨400, .err "User with this email already exists"⟩, s2)) := by
  constructor
  · intro u hdup
    simp [register, hn, he, hp, hdup]
  · intro r s2 salt2 n2 p2 un2 hreg h200 hn2 hp2
    obtain ⟨hf, u, hfind⟩ := register_200_inv hreg h200
    simp [register, hn2, he, hp2, Store.getUserByEmail, hf, hfind]

/-- Witness for C5: a duplicate registration against a populated store, and a
concrete double registration starting from the empty store. -/
theorem c5_register_duplicate_email_witness :
    register twoUserStore 1 (some "Al") (some "alice@x.com") (some "pw2") none =
      (⟨400, .err "User with this email already exists"⟩, twoUserStore) ∧
    register (register emptyStore 1 (some "Bob") (some "bob@x.com") (some "pw") none).2 2
        (some "Bob2") (some "bob@x.com") (some "pw2") none =
      (⟨400, .err "User with this email already exists"⟩,
        (register emptyStore 1 (some "Bob") (some "bob@x.com") (some "pw") none).2) := by
  constructor
  · exact (c5_register_duplicate_email twoUserStore 1 (some "Al") (some "alice@x.com")
      (some "pw2") none (by decide) (by decide) (by decide)).1
      ⟨0, "Alice", "alice@x.com", "alice", some ⟨3, "alicepw"⟩, "user", [], []⟩ rfl
  · exact (c5_register_duplicate_email emptyStore 1 (some "Bob") (some "bob@x.com")
      (some "pw") none (by decide) (by decide) (by decide)).2
      _ _ 2 (some "Bob2") (some "pw2") none Prod.mk.eta.symm rfl (by decide) (by decide)

/-- C6: the fallback path of `externalLogin`/`externalRegister` fails with
InvalidAssertion (400 "Invalid token format") when the dot-split segment
count is not 3; with three segments it decodes the middle segment and fails
with InvalidAssertion (400 "Invalid token content") when the payload lacks a
truthy email; its result never depends on the token's signature validity or
audience (no cryptographic verification); and it is invoked exactly when the
primary path raises. -/
theorem c6_fallback_parse (s : Store) (salt : Nat) (rnd : String) (t : GToken) :
    (t.parts.length ≠ 3 →
      googleLoginFallback s salt rnd t = (⟨400, .err "Invalid token format"⟩, s) ∧
      registerWithGoogleFallback s salt rnd t = (⟨400, .err "Invalid token format"⟩, s)) ∧
    (∀ d, t.parts.length = 3 → t.middle = some d → truthy d.email = false →
      googleLoginFallback s salt rnd t = (⟨400, .err "Invalid token content"⟩, s) ∧
      registerWithGoogleFallback s salt rnd t = (⟨400, .err "Invalid token content"⟩, s)) ∧
    (∀ sig aud,
      googleLoginFallback s salt rnd ⟨t.parts, t.middle, sig, aud⟩ =
        googleLoginFallback s salt rnd t ∧
      registerWithGoogleFallback s salt rnd ⟨t.parts, t.middle, sig, aud⟩ =
        registerWithGoogleFallback s salt rnd t) ∧
    (googleLoginPrimary s salt rnd t = .error () →
      googleLogin s salt rnd (some t) = googleLoginFallback s salt rnd t) ∧
    (registerWithGooglePrimary s salt rnd t = .error () →
      registerWithGoogle s salt rnd (some t) = registerWithGoogleFallback s salt rnd t) := by
  refine ⟨?_, ?_, ?_, ?_, ?_⟩
  · intro hlen
    constructor
    · simp [googleLoginFallback, hlen]
    · simp [registerWithGoogleFallback, hlen]
  · intro d hlen hm hde
    constructor
    · simp [googleLoginFallback, hlen, hm, hde]
    · simp [registerWithGoogleFallback, hlen, hm, hde]
  · intro sig aud
    obtain ⟨parts, mid, sv, au⟩ := t
    exact ⟨rfl, rfl⟩
  · intro herr
    simp [googleLogin, herr]
  · intro herr
    simp [registerWithGoogle, herr]

/-- A malformed assertion: two segments only, signature invalid. -/
def twoPartTok : GToken := ⟨["hdr", "pay"], none, false, "x"⟩

/-- A three-segment assertion whose middle segment decodes to a payload
without an email. -/
def noEmailTok : GToken := ⟨["hdr", "pay", "sig"], some ⟨some "sub-3", none, some "Nia"⟩, false, "x"⟩

/-- Witness for C6 at concrete malformed assertions. -/
theorem c6_fallback_parse_witness :
    googleLoginFallback emptyStore 1 "r" twoPartTok =
      (⟨400, .err "Invalid token format"⟩, emptyStore) ∧
    registerWithGoogleFallback emptyStore 1 "r" noEmailTok =
      (⟨400, .err "Invalid token content"⟩, emptyStore) ∧
    googleLoginFallback emptyStore 1 "r" ⟨noEmailTok.parts, noEmailTok.middle, true, "other"⟩ =
      googleLoginFallback emptyStore 1 "r" noEmailTok ∧
    googleLogin emptyStore 1 "r" (some twoPartTok) =
      googleLoginFallback emptyStore 1 "r" twoPartTok := by
  refine ⟨?_, ?_, ?_, ?_⟩
  · exact ((c6_fallback_parse emptyStore 1 "r" twoPartTok).1 (by decide)).1
  · exact ((c6_fallback_parse emptyStore 1 "r" noEmailTok).2.1 ⟨some "sub-3", none, some "Nia"⟩
      rfl rfl (by decide)).2
  · exact ((c6_fallback_parse emptyStore 1 "r" noEmailTok).2.2.1 true "other").1
  · exact (c6_fallback_parse emptyStore 1 "r" twoPartTok).2.2.2.1 rfl

/-- Computation of `googleLogin` on a signature-valid assertion whose email
already has a record: the existing record is reused. -/
lemma googleLogin_found {s : Store} {salt : Nat} {rnd : String} {t : GToken} {p : GPayload}
    {e : String} {u : User}
    (hs : t.sigValid = true) (hm : t.middle = some p) (he : p.email = some e)
    (hne : e.isEmpty = false) (hf : s.failGetByEmail = false)
    (hfind : s.st.users.find? (fun x => x.email == e) = some u) :
    googleLogin s salt rnd (some t) =
      (⟨200, .tokenUser (jwtSign ⟨u.id, u.name, u.email⟩ JWT_SECRET) (scrub u)⟩, s) := by
  simp [googleLogin, googleLoginPrimary, verifyIdToken, hs, hm, truthy, he, hne,
    Store.getUserByEmail, hf, hfind]

/-- Computation of `googleLogin` on a signature-valid assertion whose email
has no record: a record is created with defaulted fields. -/
lemma googleLogin_fresh {s : Store} {salt : Nat} {rnd : String} {t : GToken} {p : GPayload}
    {e : String}
    (hs : t.sigValid = true) (hm : t.middle = some p) (he : p.email = some e)
    (hne : e.isEmpty = false) (hf : s.failGetByEmail = false) (hfc : s.failCreate = false)
    (hfind : s.st.users.find? (fun x => x.email == e) = none) :
    googleLogin s salt rnd (some t) =
      (⟨200, .tokenUser
          (jwtSign ⟨s.st.nextId, orElseStr p.name "Google User", e⟩ JWT_SECRET)
          ⟨s.st.nextId, orElseStr p.name "Google User", e, localPart e, none, "user", [], []⟩⟩,
        { s with st := ⟨s.st.users ++
            [⟨s.st.nextId, orElseStr p.name "Google User", e, localPart e,
              some (bcryptHash salt (orElseStr p.sub rnd)), "user", [], []⟩],
            s.st.nextId + 1⟩ }) := by
  simp [googleLogin, googleLoginPrimary, verifyIdToken, hs, hm, truthy, he, hne,
    Store.getUserByEmail, Store.createUser, googleUserInsert, hf, hfc, hfind, scrub, jwtSign]

/-- C7: two `externalLogin` calls whose assertions resolve to the same email
both succeed with 200, return the same underlying user id, and the second
call adds no record to the Credential Store (a record is created only when
none with that email exists; otherwise the existing one is reused). -/
theorem c7_external_login_idempotent (s : Store) (salt1 salt2 : Nat) (rnd1 rnd2 : String)
    (t1 t2 : GToken) (p1 p2 : GPayload) (e : String)
    (h1s : t1.sigValid = true) (h1m : t1.middle = some p1) (h1e : p1.email = some e)
    (h2s : t2.sigValid = true) (h2m : t2.middle = some p2) (h2e : p2.email = some e)
    (hne : e.isEmpty = false) (hf : s.failGetByEmail = false) (hfc : s.failCreate = false) :
    (googleLogin s salt1 rnd1 (some t1)).1.status = 200 ∧
    (googleLogin (googleLogin s salt1 rnd1 (some t1)).2 salt2 rnd2 (some t2)).1.status = 200 ∧
    (googleLogin s salt1 rnd1 (some t1)).1.userId =
      (googleLogin (googleLogin s salt1 rnd1 (some t1)).2 salt2 rnd2 (some t2)).1.userId ∧
    (googleLogin (googleLogin s salt1 rnd1 (some t1)).2 salt2 rnd2 (some t2)).2.st.users =
      (googleLogin s salt1 rnd1 (some t1)).2.st.users := by
  cases hfind : s.st.users.find? (fun x => x.email == e) with
  | some u =>
    rw [googleLogin_found h1s h1m h1e hne hf hfind]
    rw [googleLogin_found h2s h2m h2e hne hf hfind]
    exact ⟨rfl, rfl, rfl, rfl⟩
  | none =>
    rw [googleLogin_fresh h1s h1m h1e hne hf hfc hfind]
    have hfind2 :
        ({ s with st := ⟨s.st.users ++
            [⟨s.st.nextId, orElseStr p1.name "Google User", e, localPart e,
              some (bcryptHash salt1 (orElseStr p1.sub rnd1)), "user", [], []⟩],
            s.st.nextId + 1⟩ } : Store).st.users.find? (fun x => x.email == e) =
          some ⟨s.st.nextId, orElseStr p1.name "Google User", e, localPart e,
            some (bcryptHash salt1 (orElseStr p1.sub rnd1)), "user", [], []⟩ := by
      show (s.st.users ++ [_]).find? _ = _
      rw [find?_append_of_none _ _ hfind]
      simp [List.find?]
    rw [googleLogin_found
      (s := { s with st := ⟨s.st.users ++
          [⟨s.st.nextId, orElseStr p1.name "Google User", e, localPart e,
            some (bcryptHash salt1 (orElseStr p1.sub rnd1)), "user", [], []⟩],
          s.st.nextId + 1⟩ })
      h2s h2m h2e hne hf hfind2]
    exact ⟨rfl, rfl, rfl, rfl⟩

/-- Witness for C7: logging in twice with the same valid Google assertion
from the empty store. -/
theorem c7_external_login_idempotent_witness :
    (googleLogin emptyStore 1 "r1" (some okGoogleTok)).1.status = 200 ∧
    (googleLogin (googleLogin emptyStore 1 "r1" (some okGoogleTok)).2 2 "r2"
        (some okGoogleTok)).1.status = 200 ∧
    (googleLogin emptyStore 1 "r1" (some okGoogleTok)).1.userId =
      (googleLogin (googleLogin emptyStore 1 "r1" (some okGoogleTok)).2 2 "r2"
        (some okGoogleTok)).1.userId ∧
    (googleLogin (googleLogin emptyStore 1 "r1" (some okGoogleTok)).2 2 "r2"
        (some okGoogleTok)).2.st.users =
      (googleLogin emptyStore 1 "r1" (some okGoogleTok)).2.st.users :=
  c7_external_login_idempotent emptyStore 1 2 "r1" "r2" okGoogleTok okGoogleTok
    ⟨some "sub-2", some "bob@example.com", some "Bob"⟩
    ⟨some "sub-2", some "bob@example.com", some "Bob"⟩
    "bob@example.com" rfl rfl rfl rfl rfl rfl (by decide) rfl rfl

/-- Computation of `registerWithGoogle` on a signature-valid assertion whose
email already has a record: DuplicateEmail, store untouched. -/
lemma registerWithGoogle_dup {s : Store} {salt : Nat} {rnd : String} {t : GToken}
    {p : GPayload} {e : String} {u : User}
    (hs : t.sigValid = true) (hm : t.middle = some p) (he : p.email = some e)
    (hne : e.isEmpty = false) (hf : s.failGetByEmail = false)
    (hfind : s.st.users.find? (fun x => x.email == e) = some u) :
    registerWithGoogle s salt rnd (some t) =
      (⟨400, .err "User with this email already exists"⟩, s) := by
  simp [registerWithGoogle, registerWithGooglePrimary, verifyIdToken, hs, hm, truthy, he, hne,
    Store.getUserByEmail, hf, hfind]

/-- Computation of `registerWithGoogle` on a signature-valid assertion whose
email has no record: a record is created with defaulted fields. -/
lemma registerWithGoogle_fresh {s : Store} {salt : Nat} {rnd : String} {t : GToken}
    {p : GPayload} {e : String}
    (hs : t.sigValid = true) (hm : t.middle = some p) (he : p.email = some e)
    (hne : e.isEmpty = false) (hf : s.failGetByEmail = false) (hfc : s.failCreate = false)
    (hfind : s.st.users.find? (fun x => x.email == e) = none) :
    registerWithGoogle s salt rnd (some t) =
      (⟨200, .tokenUser
          (jwtSign ⟨s.st.nextId, orElseStr p.name "Google User", e⟩ JWT_SECRET)
          ⟨s.st.nextId, orElseStr p.name "Google User", e, localPart e, none, "user", [], []⟩⟩,
        { s with st := ⟨s.st.users ++
            [⟨s.st.nextId, orElseStr p.name "Google User", e, localPart e,
              some (bcryptHash salt (orElseStr p.sub rnd)), "user", [], []⟩],
            s.st.nextId + 1⟩ }) := by
  simp [registerWithGoogle, registerWithGooglePrimary, verifyIdToken, hs, hm, truthy, he, hne,
    Store.getUserByEmail, Store.createUser, googleUserInsert, hf, hfc, hfind, scrub, jwtSign]

/-- C8: an `externalRegister` whose assertion resolves to an email that
already has a record fails with DuplicateEmail ("User with this email
already exists") and leaves the store untouched; calling it twice with
assertions resolving to the same fresh email makes the first call succeed
with 200 and the second fail with DuplicateEmail without modifying the
store. -/
theorem c8_external_register_duplicate (s : Store) (salt1 salt2 : Nat) (rnd1 rnd2 : String)
    (t1 t2 : GToken) (p1 p2 : GPayload) (e : String)
    (h1s : t1.sigValid = true) (h1m : t1.middle = some p1) (h1e : p1.email = some e)
    (h2s : t2.sigValid = true) (h2m : t2.middle = some p2) (h2e : p2.email = some e)
    (hne : e.isEmpty = false) (hf : s.failGetByEmail = false) (hfc : s.failCreate = false) :
    (∀ u, s.st.users.find? (fun x => x.email == e) = some u →
      registerWithGoogle s salt1 rnd1 (some t1) =
        (⟨400, .err "User with this email already exists"⟩, s)) ∧
    (s.st.users.find? (fun x => x.email == e) = none →
      (registerWithGoogle s salt1 rnd1 (some t1)).1.status = 200 ∧
      registerWithGoogle (registerWithGoogle s salt1 rnd1 (some t1)).2 salt2 rnd2 (some t2) =
        (⟨400, .err "User with this email already exists"⟩,
          (registerWithGoogle s salt1 rnd1 (some t1)).2)) := by
  constructor
  · intro u hfind
    exact registerWithGoogle_dup h1s h1m h1e hne hf hfind
  · intro hfind
    rw [registerWithGoogle_fresh h1s h1m h1e hne hf hfc hfind]
    have hfind2 :
        ({ s with st := ⟨s.st.users ++
            [⟨s.st.nextId, orElseStr p1.name "Google User", e, localPart e,
              some (bcryptHash salt1 (orElseStr p1.sub rnd1)), "user", [], []⟩],
            s.st.nextId + 1⟩ } : Store).st.users.find? (fun x => x.email == e) =
          some ⟨s.st.nextId, orElseStr p1.name "Google User", e, localPart e,
            some (bcryptHash salt1 (orElseStr p1.sub rnd1)), "user", [], []⟩ := by
      show (s.st.users ++ [_]).find? _ = _
      rw [find?_append_of_none _ _ hfind]
      simp [List.find?]
    refine ⟨rfl, ?_⟩
    exact registerWithGoogle_dup
      (s := { s with st := ⟨s.st.users ++
          [⟨s.st.nextId, orElseStr p1.name "Google User", e, localPart e,
            some (bcryptHash salt1 (orElseStr p1.sub rnd1)), "user", [], []⟩],
          s.st.nextId + 1⟩ })
      h2s h2m h2e hne hf hfind2

/-- Witness for C8: registering twice through Google with the same assertion
from the empty store, and once against a store already holding the email. -/
theorem c8_external_register_duplicate_witness :
    (registerWithGoogle emptyStore 1 "r1" (some okGoogleTok)).1.status = 200 ∧
    registerWithGoogle (registerWithGoogle emptyStore 1 "r1" (some okGoogleTok)).2 2 "r2"
        (some okGoogleTok) =
      (⟨400, .err "User with this email already exists"⟩,
        (registerWithGoogle emptyStore 1 "r1" (some okGoogleTok)).2) :=
  (c8_external_register_duplicate emptyStore 1 2 "r1" "r2" okGoogleTok okGoogleTok
    ⟨some "sub-2", some "bob@example.com", some "Bob"⟩
    ⟨some "sub-2", some "bob@example.com", some "Bob"⟩
    "bob@example.com" rfl rfl rfl rfl rfl rfl (by decide) rfl rfl).2 rfl

/-- C9: a successful `register` without a supplied username creates a record
whose username is the email's local part (substring before the first at
sign), whose role is `user`, and whose favorite-artists and
purchased-tickets lists are empty; the response embeds the record with the
password field absent. -/
theorem c9_register_username_defaults (s : Store) (salt : Nat) (n e p : Option String)
    (hn : truthy n = true) (he : truthy e = true) (hp : truthy p = true)
    (hf : s.failGetByEmail = false) (hfc : s.failCreate = false)
    (hfresh : s.st.users.find? (fun x => x.email == e.getD "") = none) :
    register s salt n e p none =
      (⟨200, .tokenUser (jwtSign ⟨s.st.nextId, n.getD "", e.getD ""⟩ JWT_SECRET)
          ⟨s.st.nextId, n.getD "", e.getD "", localPart (e.getD ""), none, "user", [], []⟩⟩,
        { s with st := ⟨s.st.users ++
            [⟨s.st.nextId, n.getD "", e.getD "", localPart (e.getD ""),
              some (bcryptHash salt (p.getD "")), "user", [], []⟩], s.st.nextId + 1⟩ }) := by
  have hun : truthy none = false := rfl
  simp [register, registerCreate, hn, he, hp, hun, Store.getUserByEmail, Store.createUser,
    hf, hfc, hfresh, scrub, jwtSign]

/-- Witness for C9: the spec's Ava scenario — the response user has username
`"ava"` and no password field. -/
theorem c9_register_username_defaults_witness :
    register emptyStore 7 (some "Ava") (some "ava@x.com") (some "secret1") none =
      (⟨200, .tokenUser (jwtSign ⟨0, "Ava", "ava@x.com"⟩ JWT_SECRET)
          ⟨0, "Ava", "ava@x.com", "ava", none, "user", [], []⟩⟩,
        ⟨⟨[⟨0, "Ava", "ava@x.com", "ava", some ⟨7, "secret1"⟩, "user", [], []⟩], 1⟩,
          false, false, false, false⟩) :=
  c9_register_username_defaults emptyStore 7 (some "Ava") (some "ava@x.com") (some "secret1")
    (by decide) (by decide) (by decide) rfl rfl rfl

/-- A bearer header carrying a token signed with a wrong secret: its
signature does not verify. -/
def wrongSecretHeader : Option BearerHeader :=
  some ⟨"Bearer", .signed "not-the-right-secret" ⟨0, "Mallory", "m@x.com"⟩⟩

/-- C10 counterexample: on `POST /api/videos` with a token that fails
signature verification the handler answers 500 (the `jwt.verify` exception is
caught by the route's catch-all), not 401 or 403 as claimed — though the
store mutation is indeed not invoked. -/
theorem c10_counterexample :
    postVideos emptyStore wrongSecretHeader "v" [] =
      (⟨500, .err "Failed to create video"⟩, []) ∧
    (postVideos emptyStore wrongSecretHeader "v" []).1.status ≠ 401 ∧
    (postVideos emptyStore wrongSecretHeader "v" []).1.status ≠ 403 :=
  ⟨rfl, by decide, by decide⟩

/-- C10 amended: for every admin content-management route (each is an
instance of `adminRoute`), a request that lacks a `Bearer` authorization
header, or carries a token failing signature verification, or whose subject
id does not resolve to a stored user with role `admin`, is answered with
401, 403, or 500 — the signature-verification failure is answered by the
route's catch-all with 500, not 401 — and the content-store mutation is
never invoked (the content state is returned unchanged). -/
theorem c10_admin_guard {σ : Type} (catchMsg : String) (mutate : σ → Resp × σ)
    (s : Store) (h : Option BearerHeader) (st : σ)
    (hbad : extractBearer h = none ∨
      (∃ tok, extractBearer h = some tok ∧ jwtVerify JWT_SECRET tok = none) ∨
      (∃ tok c, extractBearer h = some tok ∧ jwtVerify JWT_SECRET tok = some c ∧
        (s.getUser c.id = .ok none ∨
          ∃ u, s.getUser c.id = .ok (some u) ∧ u.role ≠ "admin"))) :
    ((adminRoute catchMsg mutate s h st).1.status = 401 ∨
     (adminRoute catchMsg mutate s h st).1.status = 403 ∨
     (adminRoute catchMsg mutate s h st).1.status = 500) ∧
    (adminRoute catchMsg mutate s h st).2 = st := by
  rcases hbad with hb | ⟨tok, hx, hv⟩ | ⟨tok, c, hx, hv, hrest⟩
  · simp [adminRoute, adminGuard, hb]
  · simp [adminRoute, adminGuard, hx, hv]
  · rcases hrest with hnone | ⟨u, hu, hrole⟩
    · simp [adminRoute, adminGuard, hx, hv, hnone]
    · simp [adminRoute, adminGuard, hx, hv, hu, hrole]

/-- Witness for C10's amended theorem: a missing header, the wrong-secret
token, and a non-admin user each leave the content store unchanged. -/
theorem c10_admin_guard_witness :
    ((adminRoute "Failed to create video" (contentCreate "v") emptyStore none
        ["old"]).1.status = 401 ∨
     (adminRoute "Failed to create video" (contentCreate "v") emptyStore none
        ["old"]).1.status = 403 ∨
     (adminRoute "Failed to create video" (contentCreate "v") emptyStore none
        ["old"]).1.status = 500) ∧
    (adminRoute "Failed to create video" (contentCreate "v") emptyStore none ["old"]).2 =
      ["old"] :=
  c10_admin_guard "Failed to create video" (contentCreate "v") emptyStore none ["old"]
    (Or.inl rfl)
